import Mathlib

/-!
Verification of `qnnpack::conv_param_t`
(`aten/src/ATen/native/quantized/cpu/qnnpack/include/conv_utils.h`).

The C++ code is shallowly embedded over `Nat`:

* `size_t` values are naturals taken modulo `2 ^ 64` wherever the C++
  arithmetic can wrap (`sub64`, `add64`, `mul64` below);
* `uint32_t` values are naturals that are `< 2 ^ 32`; the one place the
  source adds two `uint32_t`s (`padding[1] + padding[3]`) wraps modulo
  `2 ^ 32` and is embedded as such;
* `float` appears only through the test
  `kernel_scale <= 0.0f || !std::isnormal(kernel_scale)`, so the scale is
  embedded as an abstract IEEE-754 binary32 classification carrying exactly
  the information that test reads;
* the constructor's calls to `pytorch_qnnp_log_error` / `pytorch_qnnp_log_info`
  are embedded as lists of structured error / warning tags returned next to
  the constructed object.  The `assert("...")` following each error log
  asserts a non-null string literal, which is always true: it never aborts,
  so control flow continues past every failed check and the object is always
  produced.  Accordingly the embedded constructor is a total function.
-/

namespace QnnpackConv

/-- Bit width modulus of `size_t` (LP64). -/
def SIZE_W : Nat := 2 ^ 64

/-- Bit width modulus of `uint32_t`. -/
def U32_W : Nat := 2 ^ 32

/-- `SIZE_MAX`, the largest `size_t` value. -/
def SIZE_MAX : Nat := 2 ^ 64 - 1

/-- Wrapping `size_t` subtraction: `a - b` modulo `2 ^ 64`. -/
def sub64 (a b : Nat) : Nat := (a % SIZE_W + (SIZE_W - b % SIZE_W)) % SIZE_W

/-- Wrapping `size_t` addition: `a + b` modulo `2 ^ 64`. -/
def add64 (a b : Nat) : Nat := (a + b) % SIZE_W

/-- Wrapping `size_t` multiplication: `a * b` modulo `2 ^ 64`. -/
def mul64 (a b : Nat) : Nat := (a * b) % SIZE_W

/-- The micro-kernel dispatch enum `pytorch_qnnp_ukernel_type`.  Its
declaration lives in `pytorch_qnnpack.h`, outside the excerpt; the variant
set {`none`, `gemm`, `xzp_gemm`, `dwconv`, `conv`} is the one the
constructor in `conv_utils.h` assigns from and the one the spec lists. -/
inductive pytorch_qnnp_ukernel_type where
  | none : pytorch_qnnp_ukernel_type
  | gemm : pytorch_qnnp_ukernel_type
  | xzp_gemm : pytorch_qnnp_ukernel_type
  | dwconv : pytorch_qnnp_ukernel_type
  | conv : pytorch_qnnp_ukernel_type
deriving DecidableEq, Repr

/-- An IEEE-754 `float` abstracted to its classification and sign: exactly
the information read by `kernel_scale <= 0.0f || !std::isnormal(kernel_scale)`.
`neg = true` means the value is negative (for `zero`, the sign bit). -/
inductive float32 where
  | nan : float32
  | inf : Bool → float32
  | zero : Bool → float32
  | subnormal : Bool → float32
  | normal : Bool → float32
deriving DecidableEq, Repr

/-- `std::isnormal` on the abstracted `float`. -/
def float32.isnormal : float32 → Bool
  | .normal _ => true
  | _ => false

/-- The C++ comparison `f <= 0.0f` on the abstracted `float`; any
comparison with NaN is false, and both signed zeros compare `<= 0`. -/
def float32.le_zero : float32 → Bool
  | .nan => false
  | .inf neg => neg
  | .zero _ => true
  | .subnormal neg => neg
  | .normal neg => neg

/-- Structured identity of each `pytorch_qnnp_log_error` message emitted by
the constructor, in the taxonomy the spec names. -/
inductive ConfigError where
  | InvalidGroups : ConfigError
  | ChannelsNotDivisibleByGroups : ConfigError
  | InvalidKernelShape : ConfigError
  | InvalidStride : ConfigError
  | InvalidDilation : ConfigError
  | InvalidScale : ConfigError
deriving DecidableEq, Repr

/-- Structured identity of each `pytorch_qnnp_log_info` efficiency
diagnostic emitted by the constructor. -/
inductive EfficiencyWarning where
  | StrideHeightGtKernelHeight : EfficiencyWarning
  | StrideWidthGtKernelWidth : EfficiencyWarning
  | TopPaddingGeKernelHeight : EfficiencyWarning
  | BottomPaddingGeKernelHeight : EfficiencyWarning
  | RightPaddingGeKernelWidth : EfficiencyWarning
  | LeftPaddingGeKernelWidth : EfficiencyWarning
deriving DecidableEq, Repr

/-- `std::array<uint32_t, 2>` with the index-0 / index-1 components named
`w` / `h` after the source comments (width, height). -/
structure u32x2 where
  w : Nat
  h : Nat
deriving DecidableEq, Repr

/-- `std::array<uint32_t, 4>` input padding; fields named after the source
comment order: `padding[0]` top, `padding[1]` left, `padding[2]` bottom,
`padding[3]` right. -/
structure padding4 where
  top : Nat
  left : Nat
  bottom : Nat
  right : Nat
deriving DecidableEq, Repr

/-- The `conv_param_t` struct: the stored configuration fields plus the
derived fields the constructor fills in. -/
structure conv_param_t where
  kernel_dims : u32x2
  stride_dims : u32x2
  dilation : u32x2
  padding : padding4
  adjustment_dims : u32x2
  groups : Nat
  input_channels : Nat
  output_channels : Nat
  kernel_zero_point : Nat
  kernel_scale : float32
  output_min : Nat
  output_max : Nat
  transpose : Bool
  ukernel_type : pytorch_qnnp_ukernel_type
  group_input_channels : Nat
  group_output_channels : Nat
deriving DecidableEq, Repr

/-- The thirteen constructor arguments of `conv_param_t`, named after the
source parameter names (the scale parameter is misnamed `kernel_stride_`
in the source). -/
structure conv_param_args where
  kernel_ : u32x2
  stride_ : u32x2
  dilation_ : u32x2
  padding_ : padding4
  adjustment_ : u32x2
  groups_ : Nat
  input_channels_ : Nat
  output_channels_ : Nat
  kernel_zp_ : Nat
  kernel_stride_ : float32
  out_min_ : Nat
  out_max_ : Nat
  transpose_ : Bool
deriving DecidableEq, Repr

/-- The micro-kernel classification performed at the end of the constructor
(`conv_utils.h`, lines 230-246).  `kernel_size = kernel_height * kernel_width`
is a `uint32_t * uint32_t` product, so it wraps modulo `2 ^ 32` before being
widened to `size_t`; `any_padding` is the bitwise-or test
`(left | top | right | bottom) != 0`.  The source initializes
`ukernel_type` to `none` before this chain, but every branch of the chain
overwrites it, so the embedded function returns the chain's result
directly. -/
def classify (transpose : Bool) (kernel_dims stride_dims : u32x2)
    (padding : padding4) (groups group_input_channels group_output_channels : Nat) :
    pytorch_qnnp_ukernel_type :=
  if transpose then
    .conv
  else
    let kernel_size : Nat := (kernel_dims.h * kernel_dims.w) % U32_W
    let any_padding : Bool :=
      decide ((padding.left ||| padding.top ||| padding.right ||| padding.bottom) ≠ 0)
    if (kernel_size = 9 ∨ kernel_size = 25) ∧
        group_input_channels = 1 ∧ group_output_channels = 1 ∧ groups > 1 then
      .dwconv
    else if kernel_size = 1 ∧ stride_dims.h = 1 ∧ stride_dims.w = 1 ∧ any_padding = false then
      if group_input_channels ≥ SIZE_MAX then .xzp_gemm else .gemm
    else
      .conv

/-- The validation part of the constructor: the structured errors logged via
`pytorch_qnnp_log_error`, in source order.  When `groups_ = 0` the source's
`input_channels % groups` / `output_channels % groups` are divisions by
zero (undefined behaviour in C++); the embedding uses Lean's total `%`,
under which `n % 0 = n`. -/
def construct_errors (a : conv_param_args) : List ConfigError :=
  (if a.groups_ = 0 then [ConfigError.InvalidGroups] else []) ++
  (if a.input_channels_ % a.groups_ ≠ 0 ∨ a.output_channels_ % a.groups_ ≠ 0 then
    [ConfigError.ChannelsNotDivisibleByGroups] else []) ++
  (if a.kernel_.w = 0 ∨ a.kernel_.h = 0 then [ConfigError.InvalidKernelShape] else []) ++
  (if a.stride_.w = 0 ∨ a.stride_.h = 0 then [ConfigError.InvalidStride] else []) ++
  (if a.dilation_.w = 0 ∨ a.dilation_.h = 0 then [ConfigError.InvalidDilation] else []) ++
  (if a.kernel_stride_.le_zero = true ∨ a.kernel_stride_.isnormal = false then
    [ConfigError.InvalidScale] else [])

/-- The efficiency diagnostics logged via `pytorch_qnnp_log_info`, in
source order. -/
def construct_warnings (a : conv_param_args) : List EfficiencyWarning :=
  (if a.stride_.h > a.kernel_.h then [EfficiencyWarning.StrideHeightGtKernelHeight] else []) ++
  (if a.stride_.w > a.kernel_.w then [EfficiencyWarning.StrideWidthGtKernelWidth] else []) ++
  (if a.padding_.top ≥ a.kernel_.h then [EfficiencyWarning.TopPaddingGeKernelHeight] else []) ++
  (if a.padding_.bottom ≥ a.kernel_.h then [EfficiencyWarning.BottomPaddingGeKernelHeight] else []) ++
  (if a.padding_.right ≥ a.kernel_.w then [EfficiencyWarning.RightPaddingGeKernelWidth] else []) ++
  (if a.padding_.left ≥ a.kernel_.w then [EfficiencyWarning.LeftPaddingGeKernelWidth] else [])

/-- The `conv_param_t` constructor (`conv_utils.h`, lines 56-247): stores
the arguments, logs the validation errors and efficiency diagnostics, derives
`group_input_channels` / `group_output_channels`, and classifies the
micro-kernel type.  The `assert` after each failed check never fires (it
asserts a string literal), so the object is produced unconditionally; the
embedding returns it together with the logged errors and warnings.  When
`groups_ = 0` the source's `input_channels / groups` is a division by zero
(undefined behaviour in C++); the embedding uses Lean's total `/`, under
which `n / 0 = 0`. -/
def construct (a : conv_param_args) :
    conv_param_t × List ConfigError × List EfficiencyWarning :=
  let gic := a.input_channels_ / a.groups_
  let goc := a.output_channels_ / a.groups_
  ({ kernel_dims := a.kernel_
     stride_dims := a.stride_
     dilation := a.dilation_
     padding := a.padding_
     adjustment_dims := a.adjustment_
     groups := a.groups_
     input_channels := a.input_channels_
     output_channels := a.output_channels_
     kernel_zero_point := a.kernel_zp_
     kernel_scale := a.kernel_stride_
     output_min := a.out_min_
     output_max := a.out_max_
     transpose := a.transpose_
     ukernel_type := classify a.transpose_ a.kernel_ a.stride_ a.padding_ a.groups_ gic goc
     group_input_channels := gic
     group_output_channels := goc },
   construct_errors a,
   construct_warnings a)

/-- `compute_output_dimension` (`conv_utils.h`, lines 14-28), in wrapping
`size_t` arithmetic: the effective kernel extent is
`(kernel_dim - 1) * dilation_dim + 1`, then the transposed branch returns
`stride_dim * (input_dim - 1) + adjustment_dim + effective - pad_dim` and
the direct branch returns `(input_dim + pad_dim - effective) / stride_dim + 1`,
every operation modulo `2 ^ 64` (division by `stride_dim = 0` is undefined
behaviour in C++; Lean's total `/` gives `0`). -/
def compute_output_dimension (input_dim pad_dim adjustment_dim
    kernel_dim dilation_dim stride_dim : Nat) (transpose : Bool) : Nat :=
  let k := add64 (mul64 (sub64 kernel_dim 1) dilation_dim) 1
  if transpose then
    sub64 (add64 (add64 (mul64 stride_dim (sub64 input_dim 1)) adjustment_dim) k) pad_dim
  else
    add64 (sub64 (add64 input_dim pad_dim) k / stride_dim) 1

/-- `conv_param_t::compute_output_dims` (`conv_utils.h`, lines 252-269):
the width axis uses `padding[1] + padding[3]` (a `uint32_t` sum, wrapping
modulo `2 ^ 32`) and `adjustment_dims[0]`; the height axis uses
`padding[0] + padding[2]` and `adjustment_dims[1]`. -/
def conv_param_t.compute_output_dims (p : conv_param_t) (input_dims : Nat × Nat) :
    Nat × Nat :=
  (compute_output_dimension input_dims.1 ((p.padding.left + p.padding.right) % U32_W)
      p.adjustment_dims.w p.kernel_dims.w p.dilation.w p.stride_dims.w p.transpose,
   compute_output_dimension input_dims.2 ((p.padding.top + p.padding.bottom) % U32_W)
      p.adjustment_dims.h p.kernel_dims.h p.dilation.h p.stride_dims.h p.transpose)

/-- The per-axis output-dimension formula exactly as the spec states it,
in plain (non-wrapping) natural-number arithmetic.  This is the spec-side
counterpart of `compute_output_dimension`, used to state refinement. -/
def spec_output_dimension (input_dim pad_dim adjustment_dim
    kernel_dim dilation_dim stride_dim : Nat) (transpose : Bool) : Nat :=
  let effective_kernel := (kernel_dim - 1) * dilation_dim + 1
  if transpose then
    stride_dim * (input_dim - 1) + adjustment_dim + effective_kernel - pad_dim
  else
    (input_dim + pad_dim - effective_kernel) / stride_dim + 1

/-- The spec-side counterpart of `conv_param_t.compute_output_dims`: width
uses `padding[1] + padding[3]` (left+right) and `adjustment_dims[0]`, height
uses `padding[0] + padding[2]` (top+bottom) and `adjustment_dims[1]`. -/
def spec_output_dims (p : conv_param_t) (input_dims : Nat × Nat) : Nat × Nat :=
  (spec_output_dimension input_dims.1 (p.padding.left + p.padding.right)
      p.adjustment_dims.w p.kernel_dims.w p.dilation.w p.stride_dims.w p.transpose,
   spec_output_dimension input_dims.2 (p.padding.top + p.padding.bottom)
      p.adjustment_dims.h p.kernel_dims.h p.dilation.h p.stride_dims.h p.transpose)

lemma SIZE_W_eq : SIZE_W = 18446744073709551616 := by norm_num [SIZE_W]

lemma U32_W_eq : U32_W = 4294967296 := by norm_num [U32_W]

lemma add64_eq {a b : Nat} (h : a + b < SIZE_W) : add64 a b = a + b :=
  Nat.mod_eq_of_lt h

lemma mul64_eq {a b : Nat} (h : a * b < SIZE_W) : mul64 a b = a * b :=
  Nat.mod_eq_of_lt h

lemma sub64_eq {a b : Nat} (hb : b ≤ a) (ha : a < SIZE_W) : sub64 a b = a - b := by
  have hW : 0 < SIZE_W := by rw [SIZE_W_eq]; omega
  have hbW : b < SIZE_W := lt_of_le_of_lt hb ha
  unfold sub64
  rw [Nat.mod_eq_of_lt ha, Nat.mod_eq_of_lt hbW]
  have hsplit : a + (SIZE_W - b) = (a - b) + SIZE_W := by omega
  rw [hsplit, Nat.add_mod_right, Nat.mod_eq_of_lt (by omega)]

/-- Under the `uint32_t` range bounds on `kernel_dim` and `dilation_dim`
and `kernel_dim ≥ 1`, the wrapped effective-kernel computation agrees with
the mathematical `(kernel_dim - 1) * dilation_dim + 1`. -/
lemma effective_kernel_eq {k d : Nat} (hk1 : 1 ≤ k) (hk32 : k < U32_W)
    (hd32 : d < U32_W) :
    add64 (mul64 (sub64 k 1) d) 1 = (k - 1) * d + 1 := by
  have hkW : k < SIZE_W := by rw [SIZE_W_eq]; rw [U32_W_eq] at hk32; omega
  have hmul : (k - 1) * d ≤ (4294967296 - 2) * (4294967296 - 1) := by
    apply Nat.mul_le_mul
    · rw [U32_W_eq] at hk32; omega
    · rw [U32_W_eq] at hd32; omega
  have hmulW : (k - 1) * d < SIZE_W := by rw [SIZE_W_eq]; omega
  rw [sub64_eq hk1 hkW, mul64_eq hmulW, add64_eq (by rw [SIZE_W_eq]; rw [SIZE_W_eq] at hmulW; omega)]

/-- Effective kernel extent is at least one. -/
lemma effective_kernel_pos (k d : Nat) : 1 ≤ (k - 1) * d + 1 := by omega

/-- Under the stated preconditions, the non-transposed branch of
`compute_output_dimension` computes the mathematical
`(input + pad - effective_kernel) / stride + 1`. -/
lemma compute_output_dimension_false_eq (input pad adj k d s : Nat)
    (hk1 : 1 ≤ k) (hk32 : k < U32_W) (hd32 : d < U32_W)
    (hin : input + pad < SIZE_W)
    (heff : (k - 1) * d + 1 ≤ input + pad) :
    compute_output_dimension input pad adj k d s false =
      (input + pad - ((k - 1) * d + 1)) / s + 1 := by
  unfold compute_output_dimension
  rw [effective_kernel_eq hk1 hk32 hd32]
  simp only [Bool.false_eq_true, if_false]
  rw [add64_eq hin, sub64_eq heff hin]
  have hq : (input + pad - ((k - 1) * d + 1)) / s ≤ input + pad - ((k - 1) * d + 1) :=
    Nat.div_le_self _ _
  exact add64_eq (by omega)

/-- Under the stated preconditions, the transposed branch of
`compute_output_dimension` computes the mathematical
`stride * (input - 1) + adjustment + effective_kernel - pad`. -/
lemma compute_output_dimension_true_eq (input pad adj k d s : Nat)
    (hk1 : 1 ≤ k) (hk32 : k < U32_W) (hd32 : d < U32_W)
    (hin1 : 1 ≤ input) (hin : input < SIZE_W)
    (htot : s * (input - 1) + adj + ((k - 1) * d + 1) < SIZE_W)
    (hpad : pad ≤ s * (input - 1) + adj + ((k - 1) * d + 1)) :
    compute_output_dimension input pad adj k d s true =
      s * (input - 1) + adj + ((k - 1) * d + 1) - pad := by
  unfold compute_output_dimension
  rw [effective_kernel_eq hk1 hk32 hd32]
  simp only [if_true]
  have h1 : sub64 input 1 = input - 1 := sub64_eq hin1 hin
  have h2 : mul64 s (input - 1) = s * (input - 1) := mul64_eq (by omega)
  have h3 : add64 (s * (input - 1)) adj = s * (input - 1) + adj := add64_eq (by omega)
  have h4 : add64 (s * (input - 1) + adj) ((k - 1) * d + 1) =
      s * (input - 1) + adj + ((k - 1) * d + 1) := add64_eq (by omega)
  rw [h1, h2, h3, h4, sub64_eq hpad htot]

lemma construct_ukernel_type (a : conv_param_args) :
    (construct a).1.ukernel_type =
      classify a.transpose_ a.kernel_ a.stride_ a.padding_ a.groups_
        (a.input_channels_ / a.groups_) (a.output_channels_ / a.groups_) := rfl

lemma construct_group_input_channels (a : conv_param_args) :
    (construct a).1.group_input_channels = a.input_channels_ / a.groups_ := rfl

lemma construct_group_output_channels (a : conv_param_args) :
    (construct a).1.group_output_channels = a.output_channels_ / a.groups_ := rfl

lemma classify_false_eq (kd sd : u32x2) (pad : padding4) (g gic goc : Nat) :
    classify false kd sd pad g gic goc =
      (if ((kd.h * kd.w) % U32_W = 9 ∨ (kd.h * kd.w) % U32_W = 25) ∧
          gic = 1 ∧ goc = 1 ∧ g > 1 then
        .dwconv
      else if (kd.h * kd.w) % U32_W = 1 ∧ sd.h = 1 ∧ sd.w = 1 ∧
          decide ((pad.left ||| pad.top ||| pad.right ||| pad.bottom) ≠ 0) = false then
        if gic ≥ SIZE_MAX then .xzp_gemm else .gemm
      else
        .conv) := by
  unfold classify
  rw [if_neg (by simp)]

/-- C2: for every non-transposed construction in which
`kernel_width * kernel_height` is 9 or 25, the derived
`group_input_channels` and `group_output_channels` are both 1, and
`groups > 1`, the stored classification is `dwconv`. -/
theorem C2_dwconv_rule (a : conv_param_args)
    (ht : a.transpose_ = false)
    (hks : a.kernel_.w * a.kernel_.h = 9 ∨ a.kernel_.w * a.kernel_.h = 25)
    (hgic : a.input_channels_ / a.groups_ = 1)
    (hgoc : a.output_channels_ / a.groups_ = 1)
    (hg : a.groups_ > 1) :
    (construct a).1.ukernel_type = pytorch_qnnp_ukernel_type.dwconv := by
  have hmod : (a.kernel_.h * a.kernel_.w) % U32_W = 9 ∨
      (a.kernel_.h * a.kernel_.w) % U32_W = 25 := by
    rw [Nat.mul_comm]
    rcases hks with h | h
    · left; rw [h, U32_W_eq]
    · right; rw [h, U32_W_eq]
  rw [construct_ukernel_type, ht, classify_false_eq, if_pos ⟨hmod, hgic, hgoc, hg⟩]

/-- Arguments of the concrete dwconv instance: `transpose = false`, 3x3
kernel, `groups = 4`, 4 input and 4 output channels (so one channel per
group each way). -/
def c2_args : conv_param_args :=
  { kernel_ := ⟨3, 3⟩, stride_ := ⟨1, 1⟩, dilation_ := ⟨1, 1⟩,
    padding_ := ⟨0, 0, 0, 0⟩, adjustment_ := ⟨0, 0⟩, groups_ := 4,
    input_channels_ := 4, output_channels_ := 4, kernel_zp_ := 0,
    kernel_stride_ := .normal false, out_min_ := 0, out_max_ := 255,
    transpose_ := false }

/-- Witness for C2 at `transpose = false`, kernel 3x3, `groups = 4`,
one input and one output channel per group. -/
theorem C2_dwconv_rule_witness :
    (construct c2_args).1.ukernel_type = pytorch_qnnp_ukernel_type.dwconv :=
  C2_dwconv_rule c2_args (by decide) (by decide) (by decide) (by decide) (by decide)

/-- C3: for every non-transposed construction with a 1x1 kernel, both
strides 1, all four padding values 0, and derived `group_input_channels`
below the `SIZE_MAX` sentinel, the stored classification is `gemm`. -/
theorem C3_gemm_rule (a : conv_param_args)
    (ht : a.transpose_ = false)
    (hks : a.kernel_.w * a.kernel_.h = 1)
    (hsw : a.stride_.w = 1) (hsh : a.stride_.h = 1)
    (hpt : a.padding_.top = 0) (hpl : a.padding_.left = 0)
    (hpb : a.padding_.bottom = 0) (hpr : a.padding_.right = 0)
    (hgic : a.input_channels_ / a.groups_ < SIZE_MAX) :
    (construct a).1.ukernel_type = pytorch_qnnp_ukernel_type.gemm := by
  have hmod : (a.kernel_.h * a.kernel_.w) % U32_W = 1 := by
    rw [Nat.mul_comm, hks, U32_W_eq]
  have hnopad : decide ((a.padding_.left ||| a.padding_.top ||| a.padding_.right |||
      a.padding_.bottom) ≠ 0) = false := by
    rw [hpt, hpl, hpb, hpr]
    decide
  rw [construct_ukernel_type, ht, classify_false_eq,
    if_neg (by rw [hmod]; rintro ⟨h | h, -⟩ <;> omega),
    if_pos ⟨hmod, hsh, hsw, hnopad⟩, if_neg (not_le.mpr hgic)]

/-- Arguments of the concrete gemm instance: `transpose = false`, 1x1
kernel, stride (1,1), zero padding, `groups = 1`, 16 input and 32 output
channels. -/
def c3_args : conv_param_args :=
  { kernel_ := ⟨1, 1⟩, stride_ := ⟨1, 1⟩, dilation_ := ⟨1, 1⟩,
    padding_ := ⟨0, 0, 0, 0⟩, adjustment_ := ⟨0, 0⟩, groups_ := 1,
    input_channels_ := 16, output_channels_ := 32, kernel_zp_ := 0,
    kernel_stride_ := .normal false, out_min_ := 0, out_max_ := 255,
    transpose_ := false }

/-- Witness for C3 at `transpose = false`, kernel 1x1, stride (1,1), zero
padding, `groups = 1`, moderate channel counts. -/
theorem C3_gemm_rule_witness :
    (construct c3_args).1.ukernel_type = pytorch_qnnp_ukernel_type.gemm :=
  C3_gemm_rule c3_args (by decide) (by decide) (by decide) (by decide) (by decide)
    (by decide) (by decide) (by decide) (by decide)

/-- C4: every construction with `transpose = true` stores classification
`conv`, whatever the remaining arguments are. -/
theorem C4_transpose_conv (a : conv_param_args) :
    (construct { a with transpose_ := true }).1.ukernel_type =
      pytorch_qnnp_ukernel_type.conv := by
  rw [construct_ukernel_type]
  rfl

/-- C5: the `xzp_gemm` classification requires the derived
`group_input_channels` to reach `SIZE_MAX`; below that sentinel it is
never produced. -/
theorem C5_xzp_gemm_unreachable (a : conv_param_args)
    (hgic : a.input_channels_ / a.groups_ < SIZE_MAX) :
    (construct a).1.ukernel_type ≠ pytorch_qnnp_ukernel_type.xzp_gemm := by
  rw [construct_ukernel_type]
  cases htr : a.transpose_
  · rw [classify_false_eq]
    split
    · decide
    · split
      · rw [if_neg (not_le.mpr hgic)]
        decide
      · decide
  · have hconv : classify true a.kernel_ a.stride_ a.padding_ a.groups_
        (a.input_channels_ / a.groups_) (a.output_channels_ / a.groups_) =
        pytorch_qnnp_ukernel_type.conv := rfl
    rw [hconv]
    decide

/-- Arguments used for the C5 witness: a 1x1 `gemm`-shaped configuration
with 64 channels, far below `SIZE_MAX`. -/
def c5_args : conv_param_args :=
  { kernel_ := ⟨1, 1⟩, stride_ := ⟨1, 1⟩, dilation_ := ⟨1, 1⟩,
    padding_ := ⟨0, 0, 0, 0⟩, adjustment_ := ⟨0, 0⟩, groups_ := 1,
    input_channels_ := 64, output_channels_ := 64, kernel_zp_ := 0,
    kernel_stride_ := .normal false, out_min_ := 0, out_max_ := 255,
    transpose_ := false }

/-- Witness for C5 at a 64-channel 1x1 configuration. -/
theorem C5_xzp_gemm_unreachable_witness :
    (construct c5_args).1.ukernel_type ≠ pytorch_qnnp_ukernel_type.xzp_gemm :=
  C5_xzp_gemm_unreachable c5_args (by decide)

/-- C7: whenever `groups > 0` and both channel counts divide evenly, the
derived per-group channel counts multiply back to the totals. -/
theorem C7_group_channel_product (a : conv_param_args)
    (_hg : 0 < a.groups_)
    (hin : a.input_channels_ % a.groups_ = 0)
    (hout : a.output_channels_ % a.groups_ = 0) :
    (construct a).1.group_input_channels * a.groups_ = a.input_channels_ ∧
    (construct a).1.group_output_channels * a.groups_ = a.output_channels_ := by
  rw [construct_group_input_channels, construct_group_output_channels]
  exact ⟨Nat.div_mul_cancel (Nat.dvd_of_mod_eq_zero hin),
    Nat.div_mul_cancel (Nat.dvd_of_mod_eq_zero hout)⟩

/-- Arguments used for the C7 witness: `groups = 2`, 6 input channels and
4 output channels. -/
def c7_args : conv_param_args :=
  { kernel_ := ⟨3, 3⟩, stride_ := ⟨1, 1⟩, dilation_ := ⟨1, 1⟩,
    padding_ := ⟨0, 0, 0, 0⟩, adjustment_ := ⟨0, 0⟩, groups_ := 2,
    input_channels_ := 6, output_channels_ := 4, kernel_zp_ := 0,
    kernel_stride_ := .normal false, out_min_ := 0, out_max_ := 255,
    transpose_ := false }

/-- Witness for C7 at `groups = 2`, 6 input and 4 output channels. -/
theorem C7_group_channel_product_witness :
    (construct c7_args).1.group_input_channels * c7_args.groups_ =
      c7_args.input_channels_ ∧
    (construct c7_args).1.group_output_channels * c7_args.groups_ =
      c7_args.output_channels_ :=
  C7_group_channel_product c7_args (by decide) (by decide) (by decide)

/-- C8: the stored classification is a function of `transpose`, the kernel
and stride extents, the padding, `groups`, and the two derived per-group
channel counts alone; constructions agreeing on those — whatever their
dilation, adjustment, quantization scale and zero point, output clamps, or
which efficiency-warning conditions hold — classify identically. -/
theorem C8_classification_determined (a b : conv_param_args)
    (ht : a.transpose_ = b.transpose_)
    (hk : a.kernel_ = b.kernel_)
    (hs : a.stride_ = b.stride_)
    (hp : a.padding_ = b.padding_)
    (hg : a.groups_ = b.groups_)
    (hgic : a.input_channels_ / a.groups_ = b.input_channels_ / b.groups_)
    (hgoc : a.output_channels_ / a.groups_ = b.output_channels_ / b.groups_) :
    (construct a).1.ukernel_type = (construct b).1.ukernel_type := by
  rw [construct_ukernel_type, construct_ukernel_type, ht, hk, hs, hp, hgic, hgoc, hg]

/-- First argument record of the C8 witness pair. -/
def c8_args_a : conv_param_args :=
  { kernel_ := ⟨1, 1⟩, stride_ := ⟨1, 1⟩, dilation_ := ⟨1, 1⟩,
    padding_ := ⟨0, 0, 0, 0⟩, adjustment_ := ⟨0, 0⟩, groups_ := 2,
    input_channels_ := 8, output_channels_ := 8, kernel_zp_ := 0,
    kernel_stride_ := .normal false, out_min_ := 0, out_max_ := 255,
    transpose_ := false }

/-- Second argument record of the C8 witness pair: same
classification-relevant fields as `c8_args_a` (9 / 2 and 8 / 2 truncate to
the same per-group count) but different dilation, adjustment, zero point,
an invalid subnormal scale, different clamps, and warning-triggering
stride/padding relations. -/
def c8_args_b : conv_param_args :=
  { kernel_ := ⟨1, 1⟩, stride_ := ⟨1, 1⟩, dilation_ := ⟨3, 3⟩,
    padding_ := ⟨0, 0, 0, 0⟩, adjustment_ := ⟨5, 5⟩, groups_ := 2,
    input_channels_ := 9, output_channels_ := 9, kernel_zp_ := 17,
    kernel_stride_ := .subnormal false, out_min_ := 10, out_max_ := 20,
    transpose_ := false }

/-- Witness for C8 at the pair `c8_args_a` / `c8_args_b`. -/
theorem C8_classification_determined_witness :
    (construct c8_args_a).1.ukernel_type = (construct c8_args_b).1.ukernel_type :=
  C8_classification_determined c8_args_a c8_args_b (by decide) (by decide) (by decide)
    (by decide) (by decide) (by decide) (by decide)

/-- C9: whatever the arguments, the stored classification is one of
`gemm`, `xzp_gemm`, `dwconv`, `conv`; the `none` variant — the chain's
initial value in the source — never survives construction. -/
theorem C9_ukernel_type_never_none (a : conv_param_args) :
    ((construct a).1.ukernel_type = pytorch_qnnp_ukernel_type.gemm ∨
     (construct a).1.ukernel_type = pytorch_qnnp_ukernel_type.xzp_gemm ∨
     (construct a).1.ukernel_type = pytorch_qnnp_ukernel_type.dwconv ∨
     (construct a).1.ukernel_type = pytorch_qnnp_ukernel_type.conv) ∧
    (construct a).1.ukernel_type ≠ pytorch_qnnp_ukernel_type.none := by
  rw [construct_ukernel_type]
  cases htr : a.transpose_
  · rw [classify_false_eq]
    split
    · decide
    · split
      · split
        · decide
        · decide
      · decide
  · have hconv : classify true a.kernel_ a.stride_ a.padding_ a.groups_
        (a.input_channels_ / a.groups_) (a.output_channels_ / a.groups_) =
        pytorch_qnnp_ukernel_type.conv := rfl
    rw [hconv]
    decide

/-- C6: under the `uint32_t` type ranges of the stored fields, non-zero
kernel extents, the claim's caller precondition
`input + pad ≥ effective_kernel` for the non-transposed branch, and the
no-wraparound preconditions of the transposed branch (C10),
`compute_output_dims` computes exactly the spec's per-axis formula, with
the width axis using `padding[1] + padding[3]` and `adjustment_dims[0]`
and the height axis using `padding[0] + padding[2]` and
`adjustment_dims[1]`. -/
theorem C6_output_dims_formula (p : conv_param_t) (iw ih : Nat)
    (hkw1 : 1 ≤ p.kernel_dims.w) (hkh1 : 1 ≤ p.kernel_dims.h)
    (hkw : p.kernel_dims.w < U32_W) (hkh : p.kernel_dims.h < U32_W)
    (hdw : p.dilation.w < U32_W) (hdh : p.dilation.h < U32_W)
    (hpw : p.padding.left + p.padding.right < U32_W)
    (hph : p.padding.top + p.padding.bottom < U32_W)
    (hdirect : p.transpose = false →
      iw + (p.padding.left + p.padding.right) < SIZE_W ∧
      ih + (p.padding.top + p.padding.bottom) < SIZE_W ∧
      (p.kernel_dims.w - 1) * p.dilation.w + 1 ≤ iw + (p.padding.left + p.padding.right) ∧
      (p.kernel_dims.h - 1) * p.dilation.h + 1 ≤ ih + (p.padding.top + p.padding.bottom))
    (htrans : p.transpose = true →
      1 ≤ iw ∧ 1 ≤ ih ∧ iw < SIZE_W ∧ ih < SIZE_W ∧
      p.stride_dims.w * (iw - 1) + p.adjustment_dims.w +
        ((p.kernel_dims.w - 1) * p.dilation.w + 1) < SIZE_W ∧
      p.stride_dims.h * (ih - 1) + p.adjustment_dims.h +
        ((p.kernel_dims.h - 1) * p.dilation.h + 1) < SIZE_W ∧
      p.padding.left + p.padding.right ≤ p.stride_dims.w * (iw - 1) +
        p.adjustment_dims.w + ((p.kernel_dims.w - 1) * p.dilation.w + 1) ∧
      p.padding.top + p.padding.bottom ≤ p.stride_dims.h * (ih - 1) +
        p.adjustment_dims.h + ((p.kernel_dims.h - 1) * p.dilation.h + 1)) :
    p.compute_output_dims (iw, ih) = spec_output_dims p (iw, ih) := by
  unfold conv_param_t.compute_output_dims spec_output_dims spec_output_dimension
  rw [Nat.mod_eq_of_lt hpw, Nat.mod_eq_of_lt hph]
  cases htr : p.transpose with
  | false =>
    obtain ⟨h1, h2, h3, h4⟩ := hdirect htr
    simp only [Bool.false_eq_true, if_false]
    rw [compute_output_dimension_false_eq iw _ _ _ _ _ hkw1 hkw hdw h1 h3,
      compute_output_dimension_false_eq ih _ _ _ _ _ hkh1 hkh hdh h2 h4]
  | true =>
    obtain ⟨h1, h2, h3, h4, h5, h6, h7, h8⟩ := htrans htr
    simp only [if_true]
    rw [compute_output_dimension_true_eq iw _ _ _ _ _ hkw1 hkw hdw h1 h3 h5 h7,
      compute_output_dimension_true_eq ih _ _ _ _ _ hkh1 hkh hdh h2 h4 h6 h8]

/-- Arguments of the concrete non-transposed instance for C6: kernel 3x3,
stride 2x2, dilation 1, zero padding. -/
def c6_direct_args : conv_param_args :=
  { kernel_ := ⟨3, 3⟩, stride_ := ⟨2, 2⟩, dilation_ := ⟨1, 1⟩,
    padding_ := ⟨0, 0, 0, 0⟩, adjustment_ := ⟨0, 0⟩, groups_ := 1,
    input_channels_ := 4, output_channels_ := 4, kernel_zp_ := 0,
    kernel_stride_ := .normal false, out_min_ := 0, out_max_ := 255,
    transpose_ := false }

/-- Concrete non-transposed instance for C6. -/
def c6_direct_params : conv_param_t := (construct c6_direct_args).1

/-- Arguments of the concrete transposed instance for C6: kernel 3x3,
stride 2x2, dilation 1, zero padding, zero adjustment. -/
def c6_transpose_args : conv_param_args :=
  { kernel_ := ⟨3, 3⟩, stride_ := ⟨2, 2⟩, dilation_ := ⟨1, 1⟩,
    padding_ := ⟨0, 0, 0, 0⟩, adjustment_ := ⟨0, 0⟩, groups_ := 1,
    input_channels_ := 4, output_channels_ := 4, kernel_zp_ := 0,
    kernel_stride_ := .normal false, out_min_ := 0, out_max_ := 255,
    transpose_ := true }

/-- Concrete transposed instance for C6. -/
def c6_transpose_params : conv_param_t := (construct c6_transpose_args).1

/-- Witness for C6: kernel 3x3, stride 2x2, dilation 1, padding 0 maps
input (7,7) to (3,3) non-transposed, and input (3,3) to (7,7) transposed
with zero adjustment. -/
theorem C6_output_dims_formula_witness :
    conv_param_t.compute_output_dims c6_direct_params (7, 7) = (3, 3) ∧
    conv_param_t.compute_output_dims c6_transpose_params (3, 3) = (7, 7) := by
  constructor
  · rw [C6_output_dims_formula c6_direct_params 7 7 (by decide) (by decide) (by decide)
      (by decide) (by decide) (by decide) (by decide) (by decide) (by decide) (by decide)]
    decide
  · rw [C6_output_dims_formula c6_transpose_params 3 3 (by decide) (by decide) (by decide)
      (by decide) (by decide) (by decide) (by decide) (by decide) (by decide) (by decide)]
    decide

/-- C10: the transposed branch of `compute_output_dimension` works in
wrapping `size_t` arithmetic.  Under `input ≥ 1` and
`pad ≤ stride * (input - 1) + adjustment + effective_kernel` (and that sum
staying below `2 ^ 64`) it returns the mathematical output extent; at
`input = 0` (here with kernel 1x1, dilation 1, stride 2, no padding or
adjustment) it wraps to `SIZE_MAX`, and with `pad` exceeding the sum (here
by 4) it wraps to `2 ^ 64 - 4` instead of failing. -/
theorem C10_transposed_wraparound :
    (∀ input pad adj k d s : Nat,
      1 ≤ k → k < U32_W → d < U32_W → 1 ≤ input → input < SIZE_W →
      s * (input - 1) + adj + ((k - 1) * d + 1) < SIZE_W →
      pad ≤ s * (input - 1) + adj + ((k - 1) * d + 1) →
      compute_output_dimension input pad adj k d s true =
        s * (input - 1) + adj + ((k - 1) * d + 1) - pad) ∧
    compute_output_dimension 0 0 0 1 1 2 true = SIZE_MAX ∧
    compute_output_dimension 1 5 0 1 1 1 true = SIZE_W - 4 := by
  refine ⟨fun input pad adj k d s hk1 hk32 hd32 hin1 hin htot hpad =>
    compute_output_dimension_true_eq input pad adj k d s hk1 hk32 hd32 hin1 hin htot hpad,
    by decide, by decide⟩

/-- Witness for C10's precondition part: kernel 3, dilation 1, stride 2,
no padding or adjustment, input extent 3 gives output extent 7. -/
theorem C10_transposed_wraparound_witness :
    compute_output_dimension 3 0 0 3 1 2 true = 7 := by
  rw [C10_transposed_wraparound.1 3 0 0 3 1 2 (by decide) (by decide) (by decide)
    (by decide) (by decide) (by decide) (by decide)]

/-- Arguments with `input_channels = 10`, `groups = 3` (not divisible):
per the claim, construction should fail with
`ChannelsNotDivisibleByGroups`. -/
def c1_nondiv_args : conv_param_args :=
  { kernel_ := ⟨3, 3⟩, stride_ := ⟨1, 1⟩, dilation_ := ⟨1, 1⟩,
    padding_ := ⟨0, 0, 0, 0⟩, adjustment_ := ⟨0, 0⟩, groups_ := 3,
    input_channels_ := 10, output_channels_ := 6, kernel_zp_ := 0,
    kernel_stride_ := .normal false, out_min_ := 0, out_max_ := 255,
    transpose_ := false }

/-- Arguments with `groups = 0`: per the claim, construction should fail
with `InvalidGroups`. -/
def c1_groups0_args : conv_param_args :=
  { kernel_ := ⟨3, 3⟩, stride_ := ⟨1, 1⟩, dilation_ := ⟨1, 1⟩,
    padding_ := ⟨0, 0, 0, 0⟩, adjustment_ := ⟨0, 0⟩, groups_ := 0,
    input_channels_ := 0, output_channels_ := 0, kernel_zp_ := 0,
    kernel_stride_ := .normal false, out_min_ := 0, out_max_ := 255,
    transpose_ := false }

/-- C1, divergence of the code from the claim: the violated invariant is
reported (exactly the matching structured error is logged), but
construction does not fail — the source's `assert` is applied to a string
literal, which is always true, so it never aborts, and a fully populated
object is produced anyway: here with the truncated
`group_input_channels = 10 / 3 = 3` and a computed classification.  With
`groups = 0` the `InvalidGroups` log is likewise followed by continued
construction (in C++ the next line then divides by zero, which is
undefined behaviour, not a structured failure; the embedding uses Lean's
total `%` and `/`). -/
theorem C1_construct_logs_but_still_constructs :
    (construct c1_nondiv_args).2.1 = [ConfigError.ChannelsNotDivisibleByGroups] ∧
    (construct c1_nondiv_args).1.group_input_channels = 3 ∧
    (construct c1_nondiv_args).1.ukernel_type = pytorch_qnnp_ukernel_type.conv ∧
    (construct c1_groups0_args).2.1 = [ConfigError.InvalidGroups] := by
  decide

end QnnpackConv
